import Mathlib

set_option maxRecDepth 10000

/-!
Shallow embedding of the two source files of typespeed_ai_anticheat:
src/analysis/feature_extractor.py (keystroke feature extractor) and
src/bots/typespeed_bot.py (typing behavior generator).

Real arithmetic of the Python source (floats) is embedded over the
rationals, so every definition is executable and every concrete claim can
be evaluated exactly.
-/

/-- One entry of a stored keystroke_log as read back from JSON: every field
may be absent, mirroring the dict entries consumed by feature_extractor.py
via dict.get. -/
structure LogEntry where
  key : Option String
  timestamp : Option ℚ
  action : Option String
deriving DecidableEq, Repr

/-- Timestamps selected by the extractor (feature_extractor.py line 50):
every event whose timestamp is present is kept, backspace events included. -/
def selectTimestamps (ks : List LogEntry) : List ℚ :=
  ks.filterMap (fun k => k.timestamp)

/-- keys list (feature_extractor.py line 51): the key of every event,
possibly missing. -/
def selectKeys (ks : List LogEntry) : List (Option String) :=
  ks.map (fun k => k.key)

/-- inter_key_intervals (feature_extractor.py lines 19-22). -/
def inter_key_intervals (ts_list : List ℚ) : List ℚ :=
  if ts_list.length < 2 then []
  else (List.range (ts_list.length - 1)).map
    (fun i => (ts_list.getD (i + 1) 0 - ts_list.getD i 0) * 1000)

/-- safe_mean (feature_extractor.py lines 25-26). -/
def safe_mean (xs : List ℚ) : ℚ :=
  if xs = [] then 0 else xs.sum / (xs.length : ℚ)

/-- Square of safe_std (feature_extractor.py lines 29-30):
statistics.pstdev is the square root of the population variance; the square
determines it uniquely (both are nonnegative), and the square root of a
rational is not rational, so the embedding records the variance. -/
def safe_std_sq (xs : List ℚ) : ℚ :=
  if xs = [] then 0
  else ((xs.map (fun x => (x - xs.sum / (xs.length : ℚ)) ^ 2)).sum) / (xs.length : ℚ)

/-- statistics.median on a nonempty list: the middle element of the sorted
list, or the average of the two middle elements when the length is even. -/
def pyMedian (xs : List ℚ) : ℚ :=
  let s := List.insertionSort (fun a b => a ≤ b) xs
  if s.length % 2 = 1 then s.getD (s.length / 2) 0
  else (s.getD (s.length / 2 - 1) 0 + s.getD (s.length / 2) 0) / 2

/-- Python min over a nonempty list (the empty case is guarded at the call
site, as in the source). -/
def pyMin : List ℚ → ℚ
  | [] => 0
  | a :: t => t.foldl (fun x y => min x y) a

/-- Python max over a nonempty list (the empty case is guarded at the call
site, as in the source). -/
def pyMax : List ℚ → ℚ
  | [] => 0
  | a :: t => t.foldl (fun x y => max x y) a

/-- numpy (x[1:] * x[:-1]).sum(): the sum of products of consecutive
values of the list. -/
def sumProdConsec : List ℚ → ℚ
  | a :: b :: t => a * b + sumProdConsec (b :: t)
  | _ => 0

/-- numpy (x * x).sum(). -/
def sumSq (xs : List ℚ) : ℚ :=
  (xs.map (fun v => v * v)).sum

/-- autocorr_lag1 (feature_extractor.py lines 33-41): mean-center, guard a
short series and a zero denominator, otherwise the lag-1 product sum over
the sum of squares. -/
def autocorr_lag1 (xs : List ℚ) : ℚ :=
  if xs.length < 2 then 0
  else
    let x := xs.map (fun v => v - xs.sum / (xs.length : ℚ))
    if sumSq x = 0 then 0 else sumProdConsec x / sumSq x

/-- chars_typed (feature_extractor.py line 53): keys not among Backspace,
Shift, Enter; a missing key (None) is counted, as in Python. -/
def charsTyped (keys : List (Option String)) : ℕ :=
  keys.countP (fun k =>
    !(k == some ("Backspace") || k == some ("Shift") || k == some ("Enter")))

/-- backspaces (feature_extractor.py line 56). -/
def backspaceCount (keys : List (Option String)) : ℕ :=
  keys.countP (fun k => k == some ("Backspace"))

/-- duration_s (feature_extractor.py line 54). -/
def durationS (ts : List ℚ) : ℚ :=
  if 2 ≤ ts.length then ts.getLastD 0 - ts.headD 0 else 0

/-- computed_wpm (feature_extractor.py line 55). -/
def computedWpm (chars : ℕ) (duration : ℚ) : ℚ :=
  if 0 < duration then ((chars : ℚ) / 5) / (duration / 60) else 0

/-- burst_fraction (feature_extractor.py line 57): fraction of IKIs strictly
below 30 ms, 0 when there are none. -/
def burstFraction (ikis : List ℚ) : ℚ :=
  if ikis = [] then 0
  else ((ikis.countP (fun x => decide (x < 30))) : ℚ) / (ikis.length : ℚ)

/-- The meta dict of a run record, as consumed by the extractor. -/
structure RunMeta where
  profile : Option String
  site_mode : Option String
  start_time : Option String
  end_time : Option String
  extracted_wpm : Option ℚ
  extracted_accuracy : Option ℚ
deriving DecidableEq, Repr

/-- One row of features.csv (feature_extractor.py lines 59-79), without the
json_file column (a property of the file system, not of the record). -/
structure FeatureRow where
  profile : Option String
  site_mode : Option String
  start_time : Option String
  end_time : Option String
  chars_typed : ℕ
  duration_s : ℚ
  computed_wpm : ℚ
  mean_iki_ms : ℚ
  std_iki_ms_sq : ℚ
  median_iki_ms : ℚ
  min_iki_ms : ℚ
  max_iki_ms : ℚ
  backspace_count : ℕ
  backspace_rate : ℚ
  burst_fraction : ℚ
  autocorr_lag1 : ℚ
  extracted_wpm : Option ℚ
  extracted_accuracy : Option ℚ
deriving DecidableEq, Repr

/-- The per-record body of the row construction loop
(feature_extractor.py lines 48-79). -/
def extractRow (meta : RunMeta) (ks : List LogEntry) : FeatureRow :=
  let timestamps := selectTimestamps ks
  let keys := selectKeys ks
  let ikis := inter_key_intervals timestamps
  let chars := charsTyped keys
  let duration := durationS timestamps
  { profile := meta.profile
    site_mode := meta.site_mode
    start_time := meta.start_time
    end_time := meta.end_time
    chars_typed := chars
    duration_s := duration
    computed_wpm := computedWpm chars duration
    mean_iki_ms := safe_mean ikis
    std_iki_ms_sq := safe_std_sq ikis
    median_iki_ms := if ikis = [] then 0 else pyMedian ikis
    min_iki_ms := if ikis = [] then 0 else pyMin ikis
    max_iki_ms := if ikis = [] then 0 else pyMax ikis
    backspace_count := backspaceCount keys
    backspace_rate := if 0 < chars then ((backspaceCount keys : ℚ) / (chars : ℚ)) else 0
    burst_fraction := burstFraction ikis
    autocorr_lag1 := autocorr_lag1 ikis
    extracted_wpm := meta.extracted_wpm
    extracted_accuracy := meta.extracted_accuracy }

/-- A stored run record: meta plus keystroke_log. -/
structure RunRecord where
  meta : RunMeta
  keystroke_log : List LogEntry
deriving DecidableEq, Repr

/-- The batch build over a list of well-typed records (the for-loop of
feature_extractor.py lines 44-80): one row per record, in order. -/
def buildRows (recs : List RunRecord) : List FeatureRow :=
  recs.map (fun r => extractRow r.meta r.keystroke_log)

/-- Modelled from the spec wording of step 1 of the extraction algorithm
(the claim under test): timestamps of keypress events only, backspace
timestamps excluded.  This is the spec-side definition, to be compared
with selectTimestamps, the one the source implements. -/
def keypressTimestamps (ks : List LogEntry) : List ℚ :=
  ks.filterMap (fun k => if k.action = some ("backspace") then none else k.timestamp)

/-- Forget which events were backspaces, keeping only timestamps: used to
express that the extractor treats backspace timestamps exactly like
keypress timestamps. -/
def relabelKeypress (e : LogEntry) : LogEntry :=
  { key := some ("x"), timestamp := e.timestamp, action := some ("keypress") }

/-! Generator embedding (src/bots/typespeed_bot.py).

The side effects of type_text_profile are made explicit: wall-clock time is
a rational state component; the outcomes of the random draws
(random.random compared against 0.02, random.choice over the lowercase
alphabet, random.uniform over the configured millisecond range) and the
wall-clock time consumed by each page-driver emission call are supplied by
an oracle of streams, one index per draw. -/

/-- CLI arguments consumed by type_text_profile (typespeed_bot.py
lines 63-69). -/
structure Args where
  delay_min : ℤ
  delay_max : ℤ
  fixed_delay_ms : ℤ
  max_chars : ℕ
deriving DecidableEq, Repr

/-- The random draws and driver latencies observed during one run:
err n is the n-th outcome of random.random() < 0.02, wrong n the n-th
outcome of random.choice over the lowercase alphabet, delay n the n-th
outcome of random.uniform(delay_min, delay_max) in milliseconds, and lat n
the wall-clock time consumed by the n-th driver emission call. -/
structure Oracle where
  err : ℕ → Bool
  wrong : ℕ → Char
  delay : ℕ → ℚ
  lat : ℕ → ℚ

/-- Whether each of the two focus attempts of the page driver would
succeed (typespeed_bot.py lines 105-116). -/
structure Driver where
  focusInputOK : Bool
  focusBodyOK : Bool
deriving DecidableEq, Repr

/-- One logged keystroke event (typespeed_bot.py line 100). -/
structure KeyEvent where
  key : String
  timestamp : ℚ
  action : String
deriving DecidableEq, Repr

/-- The mutable state of one type_text_profile call: current wall-clock
time, the log list, typed_count, and the next index of each oracle
stream. -/
structure GenState where
  time : ℚ
  log : List KeyEvent
  typed : ℕ
  errIdx : ℕ
  wrongIdx : ℕ
  delayIdx : ℕ
  latIdx : ℕ
deriving DecidableEq, Repr

/-- do_type_char (typespeed_bot.py lines 118-132): the timestamp is taken
before the emission, the event is logged whether the primary emission or
the fallback dispatch ran (neither path aborts), and the emission call
consumes lat wall-clock time. -/
def do_type_char (o : Oracle) (key : String) (s : GenState) : GenState :=
  { s with log := s.log ++ [{ key := key, timestamp := s.time, action := ("keypress") }],
           time := s.time + o.lat s.latIdx,
           latIdx := s.latIdx + 1 }

/-- The backspace press of the error branch (typespeed_bot.py
lines 154-159): timestamp taken before the press, event logged whether the
primary press or the fallback dispatch ran. -/
def press_backspace (o : Oracle) (s : GenState) : GenState :=
  { s with log := s.log ++ [{ key := ("Backspace"), timestamp := s.time, action := ("backspace") }],
           time := s.time + o.lat s.latIdx,
           latIdx := s.latIdx + 1 }

/-- time.sleep(sec): advances the clock. -/
def sleepSec (sec : ℚ) (s : GenState) : GenState :=
  { s with time := s.time + sec }

/-- One loop iteration under the superhuman profile (typespeed_bot.py
lines 137-141): one keypress, no delay. -/
def stepSuper (o : Oracle) (ch : Char) (s : GenState) : GenState :=
  let s1 := do_type_char o ch.toString s
  { s1 with typed := s1.typed + 1 }

/-- One loop iteration under the bot_obvious profile (typespeed_bot.py
lines 142-146): one keypress, then the fixed delay. -/
def stepBot (args : Args) (o : Oracle) (ch : Char) (s : GenState) : GenState :=
  let s1 := do_type_char o ch.toString s
  sleepSec ((args.fixed_delay_ms : ℚ) / 1000) { s1 with typed := s1.typed + 1 }

/-- One loop iteration under the human_like profile (typespeed_bot.py
lines 147-168): random.random() is drawn every iteration; when it fires
and a following character exists, a random lowercase keypress, a uniform
delay, a backspace and the correct keypress are emitted; either way the
iteration ends with a uniform delay. -/
def stepHuman (args : Args) (o : Oracle) (ch : Char) (rest : List Char) (s : GenState) : GenState :=
  let draw := o.err s.errIdx
  let s0 := { s with errIdx := s.errIdx + 1 }
  if draw && !rest.isEmpty then
    let w := (o.wrong s0.wrongIdx).toString
    let s1 := { s0 with wrongIdx := s0.wrongIdx + 1 }
    let s2 := do_type_char o w s1
    let s3 := sleepSec (o.delay s2.delayIdx / 1000) { s2 with delayIdx := s2.delayIdx + 1 }
    let s4 := press_backspace o s3
    let s5 := do_type_char o ch.toString s4
    let s6 := { s5 with typed := s5.typed + 1 }
    sleepSec (o.delay s6.delayIdx / 1000) { s6 with delayIdx := s6.delayIdx + 1 }
  else
    let s2 := do_type_char o ch.toString s0
    let s3 := { s2 with typed := s2.typed + 1 }
    sleepSec (o.delay s3.delayIdx / 1000) { s3 with delayIdx := s3.delayIdx + 1 }

/-- Profile dispatch inside the while loop (typespeed_bot.py
lines 137-168). -/
def stepOne (profile : String) (args : Args) (o : Oracle) (ch : Char) (rest : List Char)
    (s : GenState) : GenState :=
  if profile = ("superhuman") then stepSuper o ch s
  else if profile = ("bot_obvious") then stepBot args o ch s
  else stepHuman args o ch rest s

/-- The while loop of type_text_profile (typespeed_bot.py lines 134-168):
every iteration advances i and typed_count by one, and the loop stops
silently at the max_chars cap. -/
def typeLoop (profile : String) (args : Args) (o : Oracle) : List Char → GenState → GenState
  | [], s => s
  | ch :: rest, s =>
    if s.typed < args.max_chars then typeLoop profile args o rest (stepOne profile args o ch rest s)
    else s

/-- The focus attempt (typespeed_bot.py lines 105-116): prefer the hidden
input selector, fall back to clicking body, and swallow a total failure
with a bare pass.  The outcome is not consulted afterwards. -/
def attemptFocus (d : Driver) : Bool :=
  if d.focusInputOK then true else d.focusBodyOK

/-- Initial state of one run. -/
def genInit (t0 : ℚ) : GenState :=
  { time := t0, log := [], typed := 0, errIdx := 0, wrongIdx := 0, delayIdx := 0, latIdx := 0 }

/-- Result of type_text_profile, with the focus outcome kept visible. -/
structure GenResult where
  focusOK : Bool
  state : GenState
deriving DecidableEq, Repr

/-- type_text_profile (typespeed_bot.py lines 97-169). -/
def type_text_profile (d : Driver) (text : List Char) (profile : String) (args : Args)
    (o : Oracle) (t0 : ℚ) : GenResult :=
  { focusOK := attemptFocus d, state := typeLoop profile args o text (genInit t0) }

/-- The keystrokes_count field recorded by run_iteration (typespeed_bot.py
line 315): the length of the keystroke log. -/
structure RunSummary where
  keystrokes_count : ℕ
deriving DecidableEq, Repr

/-- run_iteration's meta update (typespeed_bot.py lines 311-317),
restricted to the field the claims are about. -/
def run_iteration_meta (r : GenResult) : RunSummary :=
  { keystrokes_count := r.state.log.length }

/-! Dynamically typed view of the extractor input, for the batch build:
Python is untyped, a JSON field can hold a value of the wrong type, and
the row construction loop has no exception handling, so an ill-typed
arithmetic operand raises and aborts the whole build.  Except models the
uncaught exception. -/

/-- A JSON scalar as Python sees it: a number or a string. -/
inductive PyVal where
  | num (q : ℚ)
  | str (s : String)
deriving DecidableEq, Repr

/-- A keystroke_log entry with dynamically typed fields. -/
structure RawEntry where
  key : Option PyVal
  timestamp : Option PyVal
deriving DecidableEq, Repr

/-- A stored record with dynamically typed keystroke_log. -/
structure RawRecord where
  meta : RunMeta
  keystroke_log : List RawEntry
deriving DecidableEq, Repr

/-- Python subtraction on JSON scalars: a TypeError unless both operands
are numbers. -/
def pySubE : PyVal → PyVal → Except String ℚ
  | PyVal.num a, PyVal.num b => Except.ok (a - b)
  | _, _ => Except.error ("TypeError")

/-- inter_key_intervals over dynamically typed timestamps
(feature_extractor.py lines 19-22): the first ill-typed subtraction
raises. -/
def interKeyIntervalsE (ts : List PyVal) : Except String (List ℚ) :=
  if ts.length < 2 then Except.ok []
  else (List.range (ts.length - 1)).mapM
    (fun i => do
      let d ← pySubE (ts.getD (i + 1) (PyVal.num 0)) (ts.getD i (PyVal.num 0))
      pure (d * 1000))

/-- duration_s over dynamically typed timestamps (feature_extractor.py
line 54). -/
def durationE (ts : List PyVal) : Except String ℚ :=
  if 2 ≤ ts.length then pySubE (ts.getLastD (PyVal.num 0)) (ts.headD (PyVal.num 0))
  else Except.ok 0

/-- chars_typed over dynamically typed keys: comparison against the three
strings never raises in Python, whatever the value. -/
def charsTypedRaw (keys : List (Option PyVal)) : ℕ :=
  keys.countP (fun k =>
    !(k == some (PyVal.str ("Backspace")) || k == some (PyVal.str ("Shift"))
      || k == some (PyVal.str ("Enter"))))

/-- backspaces over dynamically typed keys. -/
def backspaceCountRaw (keys : List (Option PyVal)) : ℕ :=
  keys.countP (fun k => k == some (PyVal.str ("Backspace")))

/-- The loop body (feature_extractor.py lines 48-79) on a dynamically
typed record: an ill-typed timestamp raises (Except.error); there is no
per-record recovery in the source. -/
def extractRowE (meta : RunMeta) (ks : List RawEntry) : Except String FeatureRow := do
  let timestamps := ks.filterMap (fun k => k.timestamp)
  let keys := ks.map (fun k => k.key)
  let ikis ← interKeyIntervalsE timestamps
  let duration ← durationE timestamps
  let chars := charsTypedRaw keys
  pure { profile := meta.profile
         site_mode := meta.site_mode
         start_time := meta.start_time
         end_time := meta.end_time
         chars_typed := chars
         duration_s := duration
         computed_wpm := computedWpm chars duration
         mean_iki_ms := safe_mean ikis
         std_iki_ms_sq := safe_std_sq ikis
         median_iki_ms := if ikis = [] then 0 else pyMedian ikis
         min_iki_ms := if ikis = [] then 0 else pyMin ikis
         max_iki_ms := if ikis = [] then 0 else pyMax ikis
         backspace_count := backspaceCountRaw keys
         backspace_rate := if 0 < chars then ((backspaceCountRaw keys : ℚ) / (chars : ℚ)) else 0
         burst_fraction := burstFraction ikis
         autocorr_lag1 := autocorr_lag1 ikis
         extracted_wpm := meta.extracted_wpm
         extracted_accuracy := meta.extracted_accuracy }

/-- The batch build (feature_extractor.py lines 44-84) on dynamically
typed records: rows are produced in order and an uncaught exception in any
record aborts the whole build with nothing written. -/
def buildRowsE (recs : List RawRecord) : Except String (List FeatureRow) :=
  recs.mapM (fun r => extractRowE r.meta r.keystroke_log)

/-! Ordering predicates over generated logs. -/

/-- Non-decreasing timestamps between two adjacent events. -/
def tsLe (a b : KeyEvent) : Prop := a.timestamp ≤ b.timestamp

/-- The adjacent-pair discipline around backspace events that the
generator actually maintains: a backspace is preceded by a keypress with a
strictly smaller timestamp and followed by a keypress with a timestamp at
least as large. -/
def bsPair (a b : KeyEvent) : Prop :=
  (b.action = ("backspace") → a.action = ("keypress") ∧ a.timestamp < b.timestamp) ∧
  (a.action = ("backspace") → b.action = ("keypress") ∧ a.timestamp ≤ b.timestamp)

/-- The discipline the claim states: strict inequality on both sides of a
backspace. -/
def strictBsPair (a b : KeyEvent) : Prop :=
  (b.action = ("backspace") → a.action = ("keypress") ∧ a.timestamp < b.timestamp) ∧
  (a.action = ("backspace") → b.action = ("keypress") ∧ a.timestamp < b.timestamp)

instance : DecidableRel tsLe := fun a b =>
  inferInstanceAs (Decidable (a.timestamp ≤ b.timestamp))

instance : DecidableRel bsPair := fun a b => by
  unfold bsPair
  infer_instance

instance : DecidableRel strictBsPair := fun a b => by
  unfold strictBsPair
  infer_instance

/-- The invariant the generator maintains on (log, current time): adjacent
timestamps are non-decreasing, backspaces are flanked as in bsPair, the
first and last events are keypresses, and every logged timestamp is at
most the current time. -/
def GoodLog (l : List KeyEvent) (t : ℚ) : Prop :=
  List.Chain' tsLe l ∧ List.Chain' bsPair l ∧
  (∀ e, l.head? = some e → e.action = ("keypress")) ∧
  (∀ e, l.getLast? = some e → e.action = ("keypress")) ∧
  (∀ e ∈ l, e.timestamp ≤ t)

/-! Concrete inputs used by witnesses and counterexamples. -/

/-- A meta dict with every optional field absent. -/
def meta0 : RunMeta :=
  { profile := none, site_mode := none, start_time := none, end_time := none,
    extracted_wpm := none, extracted_accuracy := none }

/-- Default CLI arguments of typespeed_bot.py. -/
def args0 : Args :=
  { delay_min := 40, delay_max := 220, fixed_delay_ms := 5, max_chars := 5000 }

/-- An oracle whose error draw always fires, whose wrong-letter draw is
always the letter a, whose uniform delay draw is always 50 ms, and whose
driver emission calls are instantaneous. -/
def oA : Oracle :=
  { err := fun _ => true, wrong := fun _ => ('a'), delay := fun _ => 50, lat := fun _ => 0 }

/-- A driver on which both focus attempts fail. -/
def dFF : Driver := { focusInputOK := false, focusBodyOK := false }

/-- A driver on which focusing succeeds. -/
def dTT : Driver := { focusInputOK := true, focusBodyOK := true }

/-- The fresh generator state at time 0. -/
def genS0 : GenState := genInit 0

/-! Field projection lemmas for extractRow (shared helpers). -/

lemma extractRow_mean_iki (m : RunMeta) (ks : List LogEntry) :
    (extractRow m ks).mean_iki_ms = safe_mean (inter_key_intervals (selectTimestamps ks)) := rfl

lemma extractRow_std_sq (m : RunMeta) (ks : List LogEntry) :
    (extractRow m ks).std_iki_ms_sq = safe_std_sq (inter_key_intervals (selectTimestamps ks)) := rfl

lemma extractRow_median (m : RunMeta) (ks : List LogEntry) :
    (extractRow m ks).median_iki_ms =
      (if inter_key_intervals (selectTimestamps ks) = [] then 0
       else pyMedian (inter_key_intervals (selectTimestamps ks))) := rfl

lemma extractRow_min (m : RunMeta) (ks : List LogEntry) :
    (extractRow m ks).min_iki_ms =
      (if inter_key_intervals (selectTimestamps ks) = [] then 0
       else pyMin (inter_key_intervals (selectTimestamps ks))) := rfl

lemma extractRow_max (m : RunMeta) (ks : List LogEntry) :
    (extractRow m ks).max_iki_ms =
      (if inter_key_intervals (selectTimestamps ks) = [] then 0
       else pyMax (inter_key_intervals (selectTimestamps ks))) := rfl

lemma extractRow_burst (m : RunMeta) (ks : List LogEntry) :
    (extractRow m ks).burst_fraction = burstFraction (inter_key_intervals (selectTimestamps ks)) := rfl

lemma extractRow_autocorr (m : RunMeta) (ks : List LogEntry) :
    (extractRow m ks).autocorr_lag1 = autocorr_lag1 (inter_key_intervals (selectTimestamps ks)) := rfl

lemma extractRow_duration (m : RunMeta) (ks : List LogEntry) :
    (extractRow m ks).duration_s = durationS (selectTimestamps ks) := rfl

lemma extractRow_wpm (m : RunMeta) (ks : List LogEntry) :
    (extractRow m ks).computed_wpm =
      computedWpm (charsTyped (selectKeys ks)) (durationS (selectTimestamps ks)) := rfl

/-- Closed form of autocorr_lag1 with the intermediate binding expanded. -/
lemma autocorr_lag1_eq (xs : List ℚ) :
    autocorr_lag1 xs =
      if xs.length < 2 then 0
      else
        if sumSq (xs.map (fun v => v - xs.sum / (xs.length : ℚ))) = 0 then 0
        else sumProdConsec (xs.map (fun v => v - xs.sum / (xs.length : ℚ))) /
             sumSq (xs.map (fun v => v - xs.sum / (xs.length : ℚ))) := rfl

/-- Relabelling every event as a keypress does not change the selected
timestamp list: line 50 keeps every non-null timestamp. -/
lemma selectTimestamps_relabel (ks : List LogEntry) :
    selectTimestamps (ks.map relabelKeypress) = selectTimestamps ks := by
  unfold selectTimestamps
  rw [List.filterMap_map]
  rfl

/-! Concrete extractor inputs. -/

/-- A log with one backspace event between two keypresses, all three
timestamps present. -/
def ksC1 : List LogEntry :=
  [{ key := some ("a"), timestamp := some 0, action := some ("keypress") },
   { key := some ("Backspace"), timestamp := some (1/10), action := some ("backspace") },
   { key := some ("b"), timestamp := some (1/5), action := some ("keypress") }]

/-- The end-to-end input of the spec: 7 keypresses at
[0, 0.03, 0.08, 0.10, 0.15, 0.20, 0.25] seconds, no backspaces. -/
def ks7 : List LogEntry :=
  [{ key := some ("t"), timestamp := some 0, action := some ("keypress") },
   { key := some ("h"), timestamp := some (3/100), action := some ("keypress") },
   { key := some ("e"), timestamp := some (2/25), action := some ("keypress") },
   { key := some (" "), timestamp := some (1/10), action := some ("keypress") },
   { key := some ("c"), timestamp := some (3/20), action := some ("keypress") },
   { key := some ("a"), timestamp := some (1/5), action := some ("keypress") },
   { key := some ("t"), timestamp := some (1/4), action := some ("keypress") }]

/-- A log with a single keypress: one selected timestamp. -/
def ks1 : List LogEntry :=
  [{ key := some ("a"), timestamp := some 0, action := some ("keypress") }]

/-- A well-typed stored record with two numeric timestamps. -/
def goodRec : RawRecord :=
  { meta := meta0,
    keystroke_log := [{ key := some (PyVal.str ("a")), timestamp := some (PyVal.num 0) },
                      { key := some (PyVal.str ("b")), timestamp := some (PyVal.num (1/10)) }] }

/-- A malformed stored record: its second timestamp is a string, so the
interval subtraction raises a TypeError. -/
def badRec : RawRecord :=
  { meta := meta0,
    keystroke_log := [{ key := some (PyVal.str ("a")), timestamp := some (PyVal.num 0) },
                      { key := some (PyVal.str ("b")), timestamp := some (PyVal.str ("oops")) }] }

/-- C1, counterexample.  The claim says IKI statistics are computed from
keypress timestamps only, backspace timestamps excluded.  On ksC1 the
extractor's mean IKI is 100 ms (it keeps the backspace timestamp,
line 50 filters only null timestamps), while the keypress-only
computation the claim describes gives 200 ms. -/
theorem typespeed_C1_cex :
    (extractRow meta0 ksC1).mean_iki_ms ≠
      safe_mean (inter_key_intervals (keypressTimestamps ksC1)) := by
  have h1 : keypressTimestamps ksC1 = [0, 1/5] := by
    simp [keypressTimestamps, ksC1]
  have h2 : selectTimestamps ksC1 = [0, 1/10, 1/5] := by
    simp [selectTimestamps, ksC1]
  have hr2 : List.range 2 = [0, 1] := rfl
  have hr1 : List.range 1 = [0] := rfl
  have h3 : inter_key_intervals [(0:ℚ), 1/10, 1/5] = [100, 100] := by
    simp [inter_key_intervals, hr2] <;> norm_num
  have h4 : inter_key_intervals [(0:ℚ), 1/5] = [200] := by
    simp [inter_key_intervals, hr1] <;> norm_num
  rw [extractRow_mean_iki, h1, h2, h3, h4]
  simp [safe_mean]

/-- C1, amended: the timestamp list is every event's non-null timestamp,
backspace events included; consequently relabelling every event as a
keypress (keeping timestamps) changes no IKI-derived statistic, and each
IKI-derived field is computed from that all-events timestamp list. -/
theorem typespeed_C1_amended (m : RunMeta) (ks : List LogEntry) :
    selectTimestamps (ks.map relabelKeypress) = selectTimestamps ks ∧
    (extractRow m ks).mean_iki_ms = safe_mean (inter_key_intervals (selectTimestamps ks)) ∧
    (extractRow m ks).duration_s = durationS (selectTimestamps ks) ∧
    (extractRow m (ks.map relabelKeypress)).mean_iki_ms = (extractRow m ks).mean_iki_ms ∧
    (extractRow m (ks.map relabelKeypress)).std_iki_ms_sq = (extractRow m ks).std_iki_ms_sq ∧
    (extractRow m (ks.map relabelKeypress)).median_iki_ms = (extractRow m ks).median_iki_ms ∧
    (extractRow m (ks.map relabelKeypress)).min_iki_ms = (extractRow m ks).min_iki_ms ∧
    (extractRow m (ks.map relabelKeypress)).max_iki_ms = (extractRow m ks).max_iki_ms ∧
    (extractRow m (ks.map relabelKeypress)).burst_fraction = (extractRow m ks).burst_fraction ∧
    (extractRow m (ks.map relabelKeypress)).autocorr_lag1 = (extractRow m ks).autocorr_lag1 ∧
    (extractRow m (ks.map relabelKeypress)).duration_s = (extractRow m ks).duration_s := by
  have h := selectTimestamps_relabel ks
  refine ⟨h, rfl, rfl, ?_, ?_, ?_, ?_, ?_, ?_, ?_, ?_⟩
  · rw [extractRow_mean_iki, extractRow_mean_iki, h]
  · rw [extractRow_std_sq, extractRow_std_sq, h]
  · rw [extractRow_median, extractRow_median, h]
  · rw [extractRow_min, extractRow_min, h]
  · rw [extractRow_max, extractRow_max, h]
  · rw [extractRow_burst, extractRow_burst, h]
  · rw [extractRow_autocorr, extractRow_autocorr, h]
  · rw [extractRow_duration, extractRow_duration, h]

/-- C4: the extraction is a pure function of (meta, events) — two
invocations on identical inputs give identical rows — and the batch build
maps each record independently: the row of a record does not depend on
the records before or after it. -/
theorem typespeed_C4 :
    (∀ (m : RunMeta) (ks : List LogEntry), extractRow m ks = extractRow m ks) ∧
    (∀ (pre post : List RunRecord) (m : RunMeta) (ks : List LogEntry),
      buildRows (pre ++ { meta := m, keystroke_log := ks } :: post) =
        buildRows pre ++ extractRow m ks :: buildRows post) := by
  constructor
  · intro m ks
    rfl
  · intro pre post m ks
    simp [buildRows]

/-- C5: autocorr_lag1 is the sum of products of consecutive mean-centered
values over the sum of squared mean-centered values, 0 when the series
has fewer than 2 values or that denominator is 0; and every constant
series gives exactly 0. -/
theorem typespeed_C5 :
    (∀ xs : List ℚ,
      autocorr_lag1 xs =
        if xs.length < 2 then 0
        else
          if sumSq (xs.map (fun v => v - xs.sum / (xs.length : ℚ))) = 0 then 0
          else sumProdConsec (xs.map (fun v => v - xs.sum / (xs.length : ℚ))) /
               sumSq (xs.map (fun v => v - xs.sum / (xs.length : ℚ)))) ∧
    (∀ (n : ℕ) (c : ℚ), autocorr_lag1 (List.replicate n c) = 0) := by
  constructor
  · intro xs
    exact autocorr_lag1_eq xs
  · intro n c
    rw [autocorr_lag1_eq]
    by_cases h : (List.replicate n c).length < 2
    · rw [if_pos h]
    · rw [if_neg h]
      have hn : ((List.replicate n c).length : ℚ) ≠ 0 := by
        rw [List.length_replicate]
        exact_mod_cast (by rw [List.length_replicate] at h; omega : n ≠ 0)
      have hmean : (List.replicate n c).sum / ((List.replicate n c).length : ℚ) = c := by
        rw [List.sum_replicate, nsmul_eq_mul, List.length_replicate]
        rw [List.length_replicate] at hn
        exact mul_div_cancel_left₀ c hn
      have hmap : (List.replicate n c).map
          (fun v => v - (List.replicate n c).sum / ((List.replicate n c).length : ℚ)) =
          List.replicate n 0 := by
        rw [List.map_replicate, hmean, sub_self]
      rw [hmap]
      have hz : sumSq (List.replicate n 0) = 0 := by
        unfold sumSq
        rw [List.map_replicate]
        simp [List.sum_replicate]
      rw [if_pos hz]

/-- C6: with fewer than 2 selected timestamps the IKI list is empty and
every IKI-derived statistic, duration_s and computed_wpm are exactly 0. -/
theorem typespeed_C6 (m : RunMeta) (ks : List LogEntry)
    (h : (selectTimestamps ks).length < 2) :
    inter_key_intervals (selectTimestamps ks) = [] ∧
    (extractRow m ks).mean_iki_ms = 0 ∧
    (extractRow m ks).std_iki_ms_sq = 0 ∧
    (extractRow m ks).median_iki_ms = 0 ∧
    (extractRow m ks).min_iki_ms = 0 ∧
    (extractRow m ks).max_iki_ms = 0 ∧
    (extractRow m ks).burst_fraction = 0 ∧
    (extractRow m ks).autocorr_lag1 = 0 ∧
    (extractRow m ks).duration_s = 0 ∧
    (extractRow m ks).computed_wpm = 0 := by
  have hik : inter_key_intervals (selectTimestamps ks) = [] := by
    unfold inter_key_intervals
    rw [if_pos h]
  have hdur : durationS (selectTimestamps ks) = 0 := by
    unfold durationS
    rw [if_neg (by omega)]
  refine ⟨hik, ?_, ?_, ?_, ?_, ?_, ?_, ?_, ?_, ?_⟩
  · rw [extractRow_mean_iki, hik]
    rfl
  · rw [extractRow_std_sq, hik]
    rfl
  · rw [extractRow_median, hik]
    rfl
  · rw [extractRow_min, hik]
    rfl
  · rw [extractRow_max, hik]
    rfl
  · rw [extractRow_burst, hik]
    rfl
  · rw [extractRow_autocorr, hik]
    rfl
  · rw [extractRow_duration, hdur]
  · rw [extractRow_wpm, hdur]
    rfl

/-- C6, witness: a single-keypress log has one selected timestamp, and
every IKI-derived field of its row is 0. -/
theorem typespeed_C6_witness :
    (selectTimestamps ks1).length < 2 ∧
    (inter_key_intervals (selectTimestamps ks1) = [] ∧
     (extractRow meta0 ks1).mean_iki_ms = 0 ∧
     (extractRow meta0 ks1).std_iki_ms_sq = 0 ∧
     (extractRow meta0 ks1).median_iki_ms = 0 ∧
     (extractRow meta0 ks1).min_iki_ms = 0 ∧
     (extractRow meta0 ks1).max_iki_ms = 0 ∧
     (extractRow meta0 ks1).burst_fraction = 0 ∧
     (extractRow meta0 ks1).autocorr_lag1 = 0 ∧
     (extractRow meta0 ks1).duration_s = 0 ∧
     (extractRow meta0 ks1).computed_wpm = 0) :=
  ⟨by decide, typespeed_C6 meta0 ks1 (by decide)⟩

/-- C7: the end-to-end concrete record of the spec: 7 chars typed,
duration 0.25 s, computed WPM exactly 336, no backspaces, IKIs
[30, 50, 20, 50, 50, 50] ms and burst fraction exactly 1/6 (only the
20 ms interval is strictly below 30 ms; the 30 ms one is not counted). -/
theorem typespeed_C7 :
    (extractRow meta0 ks7).chars_typed = 7 ∧
    (extractRow meta0 ks7).duration_s = 1/4 ∧
    (extractRow meta0 ks7).computed_wpm = 336 ∧
    (extractRow meta0 ks7).backspace_count = 0 ∧
    (extractRow meta0 ks7).burst_fraction = 1/6 ∧
    inter_key_intervals (selectTimestamps ks7) = [30, 50, 20, 50, 50, 50] := by
  have hts : selectTimestamps ks7 = [0, 3/100, 2/25, 1/10, 3/20, 1/5, 1/4] := by
    simp [selectTimestamps, ks7]
  have hr6 : List.range 6 = [0, 1, 2, 3, 4, 5] := rfl
  have hik : inter_key_intervals [(0:ℚ), 3/100, 2/25, 1/10, 3/20, 1/5, 1/4]
      = [30, 50, 20, 50, 50, 50] := by
    simp [inter_key_intervals, hr6] <;> norm_num
  have hchars : charsTyped (selectKeys ks7) = 7 := by decide
  have hbs : backspaceCount (selectKeys ks7) = 0 := by decide
  have hdur : durationS [(0:ℚ), 3/100, 2/25, 1/10, 3/20, 1/5, 1/4] = 1/4 := by
    simp [durationS] <;> norm_num
  refine ⟨hchars, ?_, ?_, hbs, ?_, ?_⟩
  · rw [extractRow_duration, hts, hdur]
  · rw [extractRow_wpm, hts, hdur, hchars]
    unfold computedWpm
    rw [if_pos (by norm_num : (0:ℚ) < 1/4)]
    norm_num
  · rw [extractRow_burst, hts, hik]
    have e1 : (decide ((30:ℚ) < 30)) = false := decide_eq_false (by norm_num)
    have e2 : (decide ((50:ℚ) < 30)) = false := decide_eq_false (by norm_num)
    have e3 : (decide ((20:ℚ) < 30)) = true := decide_eq_true (by norm_num)
    unfold burstFraction
    rw [if_neg (by simp)]
    simp [List.countP_cons, List.countP_nil, e1, e2, e3]
  · rw [hts, hik]

/-- C9: the batch build has no per-record recovery: a record whose second
timestamp is the string "oops" raises a TypeError that aborts the whole
build (no rows at all are produced), even though the same good record
alone extracts fine.  The spec says such a record should be skipped and
the batch continued. -/
theorem typespeed_C9_eval :
    buildRowsE [goodRec, badRec] = Except.error ("TypeError") ∧
    (∃ row, extractRowE goodRec.meta goodRec.keystroke_log = Except.ok row) ∧
    (∃ rows, buildRowsE [goodRec] = Except.ok rows) := by
  refine ⟨rfl, ⟨_, rfl⟩, ⟨_, rfl⟩⟩

/-! Bounds for autocorr_lag1 (shared helpers). -/

lemma sumSq_cons (a : ℚ) (t : List ℚ) : sumSq (a :: t) = a * a + sumSq t := by
  simp [sumSq]

lemma sumSq_nonneg (xs : List ℚ) : 0 ≤ sumSq xs := by
  induction xs with
  | nil => simp [sumSq]
  | cons a t ih =>
    rw [sumSq_cons]
    have := mul_self_nonneg a
    linarith

/-- The two-term arithmetic-geometric bound used elementwise. -/
lemma abs_mul_le_half_add_sq (a b : ℚ) : |a * b| ≤ (a * a + b * b) / 2 := by
  have h3 : 2 * |a| * |b| ≤ |a| ^ 2 + |b| ^ 2 := two_mul_le_add_sq |a| |b|
  rw [sq_abs, sq_abs] at h3
  rw [abs_mul]
  nlinarith [abs_nonneg a, abs_nonneg b]

/-- Strengthened induction: the consecutive-product sum of a nonempty list
is bounded by half the head's square plus the tail's sum of squares. -/
lemma abs_sumProdConsec_le_aux : ∀ (t : List ℚ) (a : ℚ),
    |sumProdConsec (a :: t)| ≤ a * a / 2 + sumSq t := by
  intro t
  induction t with
  | nil =>
    intro a
    have := mul_self_nonneg a
    simp only [sumProdConsec, sumSq, List.map_nil, List.sum_nil]
    rw [abs_zero]
    linarith
  | cons b t2 ih =>
    intro a
    have h1 : |sumProdConsec (b :: t2)| ≤ b * b / 2 + sumSq t2 := ih b
    have h2 : |a * b| ≤ (a * a + b * b) / 2 := abs_mul_le_half_add_sq a b
    calc |sumProdConsec (a :: b :: t2)|
        = |a * b + sumProdConsec (b :: t2)| := rfl
      _ ≤ |a * b| + |sumProdConsec (b :: t2)| := abs_add _ _
      _ ≤ (a * a + b * b) / 2 + (b * b / 2 + sumSq t2) := by linarith
      _ = a * a / 2 + sumSq (b :: t2) := by rw [sumSq_cons]; ring

/-- The consecutive-product sum never exceeds the sum of squares in
absolute value. -/
lemma abs_sumProdConsec_le (xs : List ℚ) : |sumProdConsec xs| ≤ sumSq xs := by
  cases xs with
  | nil => simp [sumProdConsec, sumSq]
  | cons a t =>
    have h := abs_sumProdConsec_le_aux t a
    have ha := mul_self_nonneg a
    rw [sumSq_cons]
    linarith

lemma abs_div_le_one_of_abs_le (num den : ℚ) (h : |num| ≤ den) (hden : den ≠ 0) :
    |num / den| ≤ 1 := by
  have hpos : 0 < den := lt_of_le_of_ne (le_trans (abs_nonneg num) h) (Ne.symm hden)
  rw [abs_div, abs_of_pos hpos]
  exact (div_le_one hpos).mpr h

/-- C10: autocorr_lag1 always lies in the closed interval from -1 to 1:
the guarded branches return 0, and otherwise the lag-1 product sum of the
centered series is bounded in absolute value by the sum of squares
(elementwise arithmetic-geometric inequality), which is the positive
denominator. -/
theorem typespeed_C10 (xs : List ℚ) : -1 ≤ autocorr_lag1 xs ∧ autocorr_lag1 xs ≤ 1 := by
  have habs : |autocorr_lag1 xs| ≤ 1 := by
    rw [autocorr_lag1_eq]
    by_cases h1 : xs.length < 2
    · rw [if_pos h1]
      norm_num
    · rw [if_neg h1]
      by_cases h2 : sumSq (xs.map (fun v => v - xs.sum / (xs.length : ℚ))) = 0
      · rw [if_pos h2]
        norm_num
      · rw [if_neg h2]
        exact abs_div_le_one_of_abs_le _ _ (abs_sumProdConsec_le _) h2
  exact abs_le.mp habs

/-! Step lemmas for the generator (shared helpers). -/

/-- Every loop iteration appends at least one event. -/
lemma stepOne_log_len (profile : String) (args : Args) (o : Oracle) (ch : Char)
    (rest : List Char) (s : GenState) :
    s.log.length < (stepOne profile args o ch rest s).log.length := by
  simp only [stepOne, stepSuper, stepBot, stepHuman, do_type_char, press_backspace, sleepSec]
  split_ifs <;> simp

/-- The loop never removes events. -/
lemma typeLoop_log_len (profile : String) (args : Args) (o : Oracle) :
    ∀ (chars : List Char) (s : GenState),
      s.log.length ≤ (typeLoop profile args o chars s).log.length := by
  intro chars
  induction chars with
  | nil =>
    intro s
    simp [typeLoop]
  | cons ch rest ih =>
    intro s
    simp only [typeLoop]
    by_cases h : s.typed < args.max_chars
    · rw [if_pos h]
      exact le_trans (le_of_lt (stepOne_log_len profile args o ch rest s)) (ih _)
    · rw [if_neg h]

/-- Normal form of a human_like iteration when the error branch fires:
the wrong keypress at the current time, the backspace after the emission
latency plus the sampled delay, the correct keypress after one more
emission latency — and no delay between the backspace press and the
correct keypress other than that emission latency. -/
lemma stepHuman_true (args : Args) (o : Oracle) (ch : Char) (rest : List Char) (s : GenState)
    (hc : (o.err s.errIdx && !rest.isEmpty) = true) :
    (stepHuman args o ch rest s).log =
      s.log ++ [{ key := (o.wrong s.wrongIdx).toString, timestamp := s.time,
                  action := ("keypress") },
                { key := ("Backspace"),
                  timestamp := s.time + o.lat s.latIdx + o.delay s.delayIdx / 1000,
                  action := ("backspace") },
                { key := ch.toString,
                  timestamp := s.time + o.lat s.latIdx + o.delay s.delayIdx / 1000
                    + o.lat (s.latIdx + 1),
                  action := ("keypress") }] ∧
    (stepHuman args o ch rest s).time =
      s.time + o.lat s.latIdx + o.delay s.delayIdx / 1000 + o.lat (s.latIdx + 1)
        + o.lat (s.latIdx + 2) + o.delay (s.delayIdx + 1) / 1000 := by
  constructor <;> simp [stepHuman, do_type_char, press_backspace, sleepSec, hc]

/-- Normal form of a human_like iteration without error injection: one
keypress at the current time, then the sampled delay. -/
lemma stepHuman_false (args : Args) (o : Oracle) (ch : Char) (rest : List Char) (s : GenState)
    (hc : (o.err s.errIdx && !rest.isEmpty) = false) :
    (stepHuman args o ch rest s).log =
      s.log ++ [{ key := ch.toString, timestamp := s.time, action := ("keypress") }] ∧
    (stepHuman args o ch rest s).time =
      s.time + o.lat s.latIdx + o.delay s.delayIdx / 1000 := by
  constructor <;> simp [stepHuman, do_type_char, press_backspace, sleepSec, hc]

/-- C2, counterexample.  On a driver where both focus attempts fail, the
run is not aborted: the focus outcome is false, yet both characters of
the text are emitted and logged as keypresses.  The claim says no
keypress event is logged after a total focus failure. -/
theorem typespeed_C2_cex :
    (type_text_profile dFF [('h'), ('i')] ("superhuman") args0 oA 0).focusOK = false ∧
    (type_text_profile dFF [('h'), ('i')] ("superhuman") args0 oA 0).state.log.map
      (fun e => e.action) = [("keypress"), ("keypress")] := by
  constructor
  · rfl
  · simp [type_text_profile, typeLoop, stepOne, stepSuper, do_type_char, genInit, args0, oA]

/-- C2, amended: a total focus failure is swallowed (the source's bare
except-pass): the generated state does not depend on the focus outcome at
all, and for nonempty text under a positive max_chars cap the run still
emits and logs at least one keystroke. -/
theorem typespeed_C2_amended (d : Driver) (text : List Char) (profile : String)
    (args : Args) (o : Oracle) (t0 : ℚ) :
    (type_text_profile d text profile args o t0).state =
      (type_text_profile dTT text profile args o t0).state ∧
    (text ≠ [] → 0 < args.max_chars →
      (type_text_profile d text profile args o t0).state.log ≠ []) := by
  constructor
  · rfl
  · intro htext hmax
    cases text with
    | nil => exact absurd rfl htext
    | cons ch rest =>
      show (typeLoop profile args o (ch :: rest) (genInit t0)).log ≠ []
      have h1 : (genInit t0).typed < args.max_chars := hmax
      simp only [typeLoop]
      rw [if_pos h1]
      have h2 := stepOne_log_len profile args o ch rest (genInit t0)
      have h3 := typeLoop_log_len profile args o rest (stepOne profile args o ch rest (genInit t0))
      have h4 : 0 < (typeLoop profile args o rest
          (stepOne profile args o ch rest (genInit t0))).log.length := by
        have h0 : (genInit t0).log.length = 0 := rfl
        omega
      exact List.ne_nil_of_length_pos h4

/-- C2, witness: the amended statement at a concrete text, profile and
driver with total focus failure. -/
theorem typespeed_C2_witness :
    (type_text_profile dFF [('h'), ('i')] ("bot_obvious") args0 oA 0).state =
      (type_text_profile dTT [('h'), ('i')] ("bot_obvious") args0 oA 0).state ∧
    (type_text_profile dFF [('h'), ('i')] ("bot_obvious") args0 oA 0).state.log ≠ [] :=
  ⟨(typespeed_C2_amended dFF [('h'), ('i')] ("bot_obvious") args0 oA 0).1,
   (typespeed_C2_amended dFF [('h'), ('i')] ("bot_obvious") args0 oA 0).2
     (by decide) (by decide)⟩

/-- C3, counterexample.  With the error draw firing at position 0 of the
text ab and the wrong-letter draw returning a, the injected wrong
keypress (the first event, followed by the backspace) has key a — equal
to the correct character a that is retyped after the backspace.  The
claim says the injected letter is never the correct character; the source
draws from the full lowercase alphabet without excluding it. -/
theorem typespeed_C3_cex :
    (type_text_profile dTT [('a'), ('b')] ("human_like") args0 oA 0).state.log.map
      (fun e => (e.key, e.action)) =
    [(("a"), ("keypress")), (("Backspace"), ("backspace")),
     (("a"), ("keypress")), (("b"), ("keypress"))] := by
  simp [type_text_profile, typeLoop, stepOne, stepHuman, do_type_char, press_backspace,
    sleepSec, genInit, args0, oA]
  exact ⟨rfl, rfl⟩

/-- C3, amended: at an injection position (error draw fires, a following
character exists), the iteration appends exactly a wrong keypress whose
key is the drawn lowercase letter (possibly equal to the correct
character), then — after the emission latency and the sampled delay,
strictly later when delays are positive — a backspace, then the correct
character's keypress no earlier than the backspace. -/
theorem typespeed_C3_amended (args : Args) (o : Oracle) (ch : Char) (rest : List Char)
    (s : GenState) (herr : o.err s.errIdx = true) (hrest : rest ≠ [])
    (hw : ∀ n, ('a') ≤ o.wrong n ∧ o.wrong n ≤ ('z'))
    (hdel : ∀ n, 0 < o.delay n) (hlat : ∀ n, 0 ≤ o.lat n) :
    (stepHuman args o ch rest s).log =
      s.log ++ [{ key := (o.wrong s.wrongIdx).toString, timestamp := s.time,
                  action := ("keypress") },
                { key := ("Backspace"),
                  timestamp := s.time + o.lat s.latIdx + o.delay s.delayIdx / 1000,
                  action := ("backspace") },
                { key := ch.toString,
                  timestamp := s.time + o.lat s.latIdx + o.delay s.delayIdx / 1000
                    + o.lat (s.latIdx + 1),
                  action := ("keypress") }] ∧
    s.time < s.time + o.lat s.latIdx + o.delay s.delayIdx / 1000 ∧
    s.time + o.lat s.latIdx + o.delay s.delayIdx / 1000 ≤
      s.time + o.lat s.latIdx + o.delay s.delayIdx / 1000 + o.lat (s.latIdx + 1) ∧
    ('a') ≤ o.wrong s.wrongIdx ∧ o.wrong s.wrongIdx ≤ ('z') := by
  have hre : rest.isEmpty = false := by
    cases rest with
    | nil => exact absurd rfl hrest
    | cons a t => rfl
  have hc : (o.err s.errIdx && !rest.isEmpty) = true := by
    rw [herr, hre]
    rfl
  have hdiv : 0 < o.delay s.delayIdx / 1000 := by
    have := hdel s.delayIdx
    positivity
  refine ⟨(stepHuman_true args o ch rest s hc).1, ?_, ?_, (hw s.wrongIdx).1, (hw s.wrongIdx).2⟩
  · have := hlat s.latIdx
    linarith
  · have := hlat (s.latIdx + 1)
    linarith

/-- C3, witness: the amended statement at the concrete oracle oA and the
fresh state. -/
theorem typespeed_C3_witness :
    (stepHuman args0 oA ('a') [('b')] genS0).log =
      genS0.log ++ [{ key := (oA.wrong genS0.wrongIdx).toString, timestamp := genS0.time,
                      action := ("keypress") },
                    { key := ("Backspace"),
                      timestamp := genS0.time + oA.lat genS0.latIdx
                        + oA.delay genS0.delayIdx / 1000,
                      action := ("backspace") },
                    { key := ('a').toString,
                      timestamp := genS0.time + oA.lat genS0.latIdx
                        + oA.delay genS0.delayIdx / 1000 + oA.lat (genS0.latIdx + 1),
                      action := ("keypress") }] ∧
    genS0.time < genS0.time + oA.lat genS0.latIdx + oA.delay genS0.delayIdx / 1000 ∧
    genS0.time + oA.lat genS0.latIdx + oA.delay genS0.delayIdx / 1000 ≤
      genS0.time + oA.lat genS0.latIdx + oA.delay genS0.delayIdx / 1000
        + oA.lat (genS0.latIdx + 1) ∧
    ('a') ≤ oA.wrong genS0.wrongIdx ∧ oA.wrong genS0.wrongIdx ≤ ('z') :=
  typespeed_C3_amended args0 oA ('a') [('b')] genS0 rfl (by decide)
    (fun n => by
      have h : oA.wrong n = ('a') := rfl
      rw [h]
      exact ⟨le_refl _, by decide⟩)
    (fun n => by norm_num [oA]) (fun n => le_refl 0)

/-! GoodLog preservation through the generator loop (shared helpers). -/

lemma goodLog_append (l m : List KeyEvent) (t u : ℚ)
    (hl : GoodLog l t) (hm : GoodLog m u) (hmne : m ≠ [])
    (hlow : ∀ e ∈ m, t ≤ e.timestamp) (htu : t ≤ u) :
    GoodLog (l ++ m) u := by
  obtain ⟨hl1, hl2, hl3, hl4, hl5⟩ := hl
  obtain ⟨hm1, hm2, hm3, hm4, hm5⟩ := hm
  refine ⟨?_, ?_, ?_, ?_, ?_⟩
  · rw [List.chain'_append]
    refine ⟨hl1, hm1, ?_⟩
    intro x hx y hy
    have hxl : x ∈ l := List.mem_of_mem_getLast? hx
    have hym : y ∈ m := List.mem_of_mem_head? hy
    exact le_trans (hl5 x hxl) (hlow y hym)
  · rw [List.chain'_append]
    refine ⟨hl2, hm2, ?_⟩
    intro x hx y hy
    have hxkp : x.action = ("keypress") := hl4 x (Option.mem_def.mp hx)
    have hykp : y.action = ("keypress") := hm3 y (Option.mem_def.mp hy)
    constructor
    · intro hybs
      rw [hykp] at hybs
      simp at hybs
    · intro hxbs
      rw [hxkp] at hxbs
      simp at hxbs
  · cases l with
    | nil =>
      intro e he
      exact hm3 e he
    | cons a tl =>
      intro e he
      rw [List.cons_append] at he
      have ha : a = e := by
        simpa using he
      exact ha ▸ hl3 a rfl
  · intro e he
    rw [List.getLast?_append_of_ne_nil l hmne] at he
    exact hm4 e he
  · intro e he
    rcases List.mem_append.mp he with h | h
    · exact le_trans (hl5 e h) htu
    · exact hm5 e h

/-- A single keypress event is a good block. -/
lemma goodLog_single (key : String) (t1 u : ℚ) (h : t1 ≤ u) :
    GoodLog [{ key := key, timestamp := t1, action := ("keypress") }] u := by
  refine ⟨List.chain'_singleton _, List.chain'_singleton _, ?_, ?_, ?_⟩
  · intro e he
    have : { key := key, timestamp := t1, action := ("keypress") : KeyEvent } = e := by
      simpa using he
    rw [← this]
  · intro e he
    have : { key := key, timestamp := t1, action := ("keypress") : KeyEvent } = e := by
      simpa using he
    rw [← this]
  · intro e he
    have : e = { key := key, timestamp := t1, action := ("keypress") : KeyEvent } := by
      simpa using he
    rw [this]
    exact h

/-- A wrong-keypress, backspace, correct-keypress block with
non-decreasing times and a strict increase into the backspace is a good
block. -/
lemma goodLog_block (w c : String) (t1 t2 t3 u : ℚ)
    (h12 : t1 < t2) (h23 : t2 ≤ t3) (h3u : t3 ≤ u) :
    GoodLog [{ key := w, timestamp := t1, action := ("keypress") },
             { key := ("Backspace"), timestamp := t2, action := ("backspace") },
             { key := c, timestamp := t3, action := ("keypress") }] u := by
  refine ⟨?_, ?_, ?_, ?_, ?_⟩
  · rw [List.chain'_cons, List.chain'_cons]
    exact ⟨le_of_lt h12, h23, List.chain'_singleton _⟩
  · rw [List.chain'_cons, List.chain'_cons]
    refine ⟨⟨fun _ => ⟨rfl, h12⟩, ?_⟩, ⟨?_, fun _ => ⟨rfl, h23⟩⟩, List.chain'_singleton _⟩
    · intro hbs
      simp at hbs
    · intro hbs
      simp at hbs
  · intro e he
    have : { key := w, timestamp := t1, action := ("keypress") : KeyEvent } = e := by
      simpa using he
    rw [← this]
  · intro e he
    have : { key := c, timestamp := t3, action := ("keypress") : KeyEvent } = e := by
      simpa using he
    rw [← this]
  · intro e he
    have h1 := le_trans h23 h3u
    have h2 := le_trans (le_of_lt h12) h1
    simp only [List.mem_cons, List.not_mem_nil, or_false] at he
    rcases he with h | h | h
    · rw [h]
      exact h2
    · rw [h]
      exact h1
    · rw [h]
      exact h3u

/-- One loop iteration preserves the log invariant, under nonnegative
emission latencies, strictly positive sampled delays and a nonnegative
fixed delay. -/
lemma goodLog_stepOne (profile : String) (args : Args) (o : Oracle) (ch : Char)
    (rest : List Char) (s : GenState)
    (hlat : ∀ n, 0 ≤ o.lat n) (hdel : ∀ n, 0 < o.delay n)
    (hfix : 0 ≤ args.fixed_delay_ms) (h : GoodLog s.log s.time) :
    GoodLog (stepOne profile args o ch rest s).log (stepOne profile args o ch rest s).time := by
  have hl0 := hlat s.latIdx
  have hl1 := hlat (s.latIdx + 1)
  have hl2 := hlat (s.latIdx + 2)
  have hd0 : 0 < o.delay s.delayIdx / 1000 := by
    have := hdel s.delayIdx
    positivity
  have hd1 : 0 < o.delay (s.delayIdx + 1) / 1000 := by
    have := hdel (s.delayIdx + 1)
    positivity
  unfold stepOne
  split_ifs with h1 h2
  · have hlog : (stepSuper o ch s).log =
        s.log ++ [{ key := ch.toString, timestamp := s.time, action := ("keypress") }] := by
      simp [stepSuper, do_type_char]
    have htime : (stepSuper o ch s).time = s.time + o.lat s.latIdx := by
      simp [stepSuper, do_type_char]
    rw [hlog, htime]
    refine goodLog_append _ _ s.time _ h (goodLog_single _ _ _ (by linarith)) (by simp) ?_
      (by linarith)
    intro e he
    have : e = { key := ch.toString, timestamp := s.time, action := ("keypress") : KeyEvent } := by
      simpa using he
    rw [this]
  · have hfl : (0:ℚ) ≤ (args.fixed_delay_ms : ℚ) / 1000 := by
      have : (0:ℚ) ≤ (args.fixed_delay_ms : ℚ) := by exact_mod_cast hfix
      positivity
    have hlog : (stepBot args o ch s).log =
        s.log ++ [{ key := ch.toString, timestamp := s.time, action := ("keypress") }] := by
      simp [stepBot, do_type_char, sleepSec]
    have htime : (stepBot args o ch s).time =
        s.time + o.lat s.latIdx + (args.fixed_delay_ms : ℚ) / 1000 := by
      simp [stepBot, do_type_char, sleepSec]
    rw [hlog, htime]
    refine goodLog_append _ _ s.time _ h (goodLog_single _ _ _ (by linarith)) (by simp) ?_
      (by linarith)
    intro e he
    have : e = { key := ch.toString, timestamp := s.time, action := ("keypress") : KeyEvent } := by
      simpa using he
    rw [this]
  · by_cases hc : (o.err s.errIdx && !rest.isEmpty) = true
    · obtain ⟨hlog, htime⟩ := stepHuman_true args o ch rest s hc
      rw [hlog, htime]
      refine goodLog_append _ _ s.time _ h
        (goodLog_block _ _ _ _ _ _ (by linarith) (by linarith) (by linarith)) (by simp) ?_
        (by linarith)
      intro e he
      simp only [List.mem_cons, List.not_mem_nil, or_false] at he
      rcases he with he | he | he
      · rw [he]
      · rw [he]
        show s.time ≤ s.time + o.lat s.latIdx + o.delay s.delayIdx / 1000
        linarith
      · rw [he]
        show s.time ≤ s.time + o.lat s.latIdx + o.delay s.delayIdx / 1000 + o.lat (s.latIdx + 1)
        linarith
    · have hc2 : (o.err s.errIdx && !rest.isEmpty) = false := by
        revert hc
        cases (o.err s.errIdx && !rest.isEmpty) <;> simp
      obtain ⟨hlog, htime⟩ := stepHuman_false args o ch rest s hc2
      rw [hlog, htime]
      refine goodLog_append _ _ s.time _ h (goodLog_single _ _ _ (by linarith)) (by simp) ?_
        (by linarith)
      intro e he
      have : e = { key := ch.toString, timestamp := s.time, action := ("keypress") : KeyEvent } := by
        simpa using he
      rw [this]

/-- The whole loop preserves the log invariant. -/
lemma goodLog_typeLoop (profile : String) (args : Args) (o : Oracle)
    (hlat : ∀ n, 0 ≤ o.lat n) (hdel : ∀ n, 0 < o.delay n)
    (hfix : 0 ≤ args.fixed_delay_ms) :
    ∀ (chars : List Char) (s : GenState), GoodLog s.log s.time →
      GoodLog (typeLoop profile args o chars s).log (typeLoop profile args o chars s).time := by
  intro chars
  induction chars with
  | nil =>
    intro s hs
    simpa [typeLoop] using hs
  | cons ch rest ih =>
    intro s hs
    simp only [typeLoop]
    by_cases h : s.typed < args.max_chars
    · rw [if_pos h]
      exact ih _ (goodLog_stepOne profile args o ch rest s hlat hdel hfix hs)
    · rw [if_neg h]
      exact hs

/-- C8, counterexample.  The source sleeps between the wrong keypress and
the backspace, but not between the backspace press and the correcting
keypress: with instantaneous driver emission calls the backspace and the
correcting keypress carry the same timestamp, so the backspace timestamp
is not strictly between its neighbours, refuting the strictly-between
part of the claim on this concrete completed run. -/
theorem typespeed_C8_cex :
    ¬ List.Chain' strictBsPair
      (type_text_profile dTT [('a'), ('b')] ("human_like") args0 oA 0).state.log := by
  intro hch
  have hlog : (type_text_profile dTT [('a'), ('b')] ("human_like") args0 oA 0).state.log =
      [{ key := ("a"), timestamp := 0, action := ("keypress") },
       { key := ("Backspace"), timestamp := 1/20, action := ("backspace") },
       { key := ("a"), timestamp := 1/20, action := ("keypress") },
       { key := ("b"), timestamp := 1/10, action := ("keypress") }] := by
    simp [type_text_profile, typeLoop, stepOne, stepHuman, do_type_char, press_backspace,
      sleepSec, genInit, args0, oA]
    norm_num
    exact ⟨rfl, rfl⟩
  rw [hlog] at hch
  rw [List.chain'_cons, List.chain'_cons] at hch
  have h23 := hch.2.1
  have h := (h23.2 rfl).2
  norm_num at h

/-- C8, amended: on every completed run, under every profile, with
nonnegative emission latencies, strictly positive sampled delays and a
nonnegative fixed delay: keystrokes_count equals the length of the event
log, timestamps are non-decreasing, the log starts and ends with a
keypress, and every backspace is preceded by a keypress with a strictly
smaller timestamp and followed by a keypress with a timestamp at least as
large (equality is possible: the source does not sleep between the
backspace press and the correcting keypress). -/
theorem typespeed_C8_amended (d : Driver) (text : List Char) (profile : String)
    (args : Args) (o : Oracle) (t0 : ℚ)
    (hlat : ∀ n, 0 ≤ o.lat n) (hdel : ∀ n, 0 < o.delay n)
    (hfix : 0 ≤ args.fixed_delay_ms) :
    (run_iteration_meta (type_text_profile d text profile args o t0)).keystrokes_count =
      (type_text_profile d text profile args o t0).state.log.length ∧
    List.Chain' tsLe (type_text_profile d text profile args o t0).state.log ∧
    List.Chain' bsPair (type_text_profile d text profile args o t0).state.log ∧
    (∀ e, (type_text_profile d text profile args o t0).state.log.head? = some e →
      e.action = ("keypress")) ∧
    (∀ e, (type_text_profile d text profile args o t0).state.log.getLast? = some e →
      e.action = ("keypress")) := by
  have h0 : GoodLog (genInit t0).log (genInit t0).time := by
    refine ⟨List.chain'_nil, List.chain'_nil, ?_, ?_, ?_⟩ <;> simp [genInit]
  have h := goodLog_typeLoop profile args o hlat hdel hfix text (genInit t0) h0
  exact ⟨rfl, h.1, h.2.1, h.2.2.1, h.2.2.2.1⟩

/-- C8, witness: the amended statement at a concrete human_like run with
an injected error. -/
theorem typespeed_C8_witness :
    (run_iteration_meta (type_text_profile dTT [('a'), ('b')] ("human_like") args0 oA 0)).keystrokes_count =
      (type_text_profile dTT [('a'), ('b')] ("human_like") args0 oA 0).state.log.length ∧
    List.Chain' tsLe (type_text_profile dTT [('a'), ('b')] ("human_like") args0 oA 0).state.log ∧
    List.Chain' bsPair (type_text_profile dTT [('a'), ('b')] ("human_like") args0 oA 0).state.log ∧
    (∀ e, (type_text_profile dTT [('a'), ('b')] ("human_like") args0 oA 0).state.log.head? = some e →
      e.action = ("keypress")) ∧
    (∀ e, (type_text_profile dTT [('a'), ('b')] ("human_like") args0 oA 0).state.log.getLast? = some e →
      e.action = ("keypress")) :=
  typespeed_C8_amended dTT [('a'), ('b')] ("human_like") args0 oA 0
    (fun n => le_refl 0) (fun n => by norm_num [oA]) (by decide)
